import Mathlib

/-
Verification development for the web-video-editor repository.

The relational store (src/server/src/db/schema.ts) is embedded as four
lists of rows.  Numeric columns, persisted as fixed-precision decimal
strings by the database, are modelled as rational numbers; the
number-to-string and string-to-number conversions performed by the
handlers are value preserving and are therefore the identity in this
model.  Timestamps are modelled as a logical clock of type Nat; each
mutating handler receives the current clock value as an extra argument
standing for new Date() and the defaultNow() column defaults.

Every handler of src/server/src/handlers is embedded as a function
Store -> result x Store, total and executable; a thrown error is an
Except.error result paired with the store the database holds at that
point.  The zod input schemas (src/server/src/schema.ts) are embedded
as boolean validity predicates, and the tRPC procedures of
src/server/src/index.ts as wrappers that reject invalid input with a
validation error before invoking the handler.
-/

namespace VideoEditor

/-- Status values of a project, from projectStatusEnum in src/server/src/db/schema.ts. -/
inductive ProjectStatus where
  | draft
  | in_progress
  | completed
  | archived
deriving Repr, DecidableEq

/-- Media asset types, from mediaTypeEnum in src/server/src/db/schema.ts. -/
inductive MediaType where
  | video
  | image
  | audio
deriving Repr, DecidableEq

/-- Row of the users table (usersTable in src/server/src/db/schema.ts). -/
structure User where
  id : Nat
  username : String
  email : String
  created_at : Nat
  updated_at : Nat
deriving Repr, DecidableEq

/-- Row of the projects table (projectsTable in src/server/src/db/schema.ts). -/
structure Project where
  id : Nat
  title : String
  description : Option String
  status : ProjectStatus
  duration : Option Rat
  frame_rate : Rat
  resolution_width : Int
  resolution_height : Int
  user_id : Nat
  created_at : Nat
  updated_at : Nat
deriving Repr, DecidableEq

/-- Row of the media_assets table (mediaAssetsTable in src/server/src/db/schema.ts). -/
structure MediaAsset where
  id : Nat
  filename : String
  original_filename : String
  file_path : String
  file_size : Rat
  mime_type : String
  media_type : MediaType
  duration : Option Rat
  width : Option Int
  height : Option Int
  user_id : Nat
  created_at : Nat
  updated_at : Nat
deriving Repr, DecidableEq

/-- Row of the timeline_items table (timelineItemsTable in src/server/src/db/schema.ts). -/
structure TimelineItem where
  id : Nat
  project_id : Nat
  media_asset_id : Nat
  track_number : Int
  start_time : Rat
  end_time : Rat
  media_start_offset : Rat
  volume : Option Rat
  opacity : Option Rat
  position_x : Option Rat
  position_y : Option Rat
  scale : Option Rat
  rotation : Option Rat
  created_at : Nat
  updated_at : Nat
deriving Repr, DecidableEq

/-- The relational store: the four tables of src/server/src/db/schema.ts. -/
structure Store where
  users : List User
  projects : List Project
  mediaAssets : List MediaAsset
  timelineItems : List TimelineItem
deriving Repr, DecidableEq

/-- Fresh value of a serial primary key column: one more than the largest id present. -/
def freshId (ids : List Nat) : Nat :=
  ids.foldr (fun a b => max a b) 0 + 1

/-- Errors surfaced to the caller.  A thrown new Error whose message denotes a
missing referenced entity is a notFound; a zod input-schema rejection at the
tRPC boundary is a validation error; a unique-constraint violation is a
conflict. -/
inductive Err where
  | notFound (msg : String)
  | validation (msg : String)
  | conflict (msg : String)
deriving Repr, DecidableEq

/-- Meaning of the JavaScript expression (x || null) on an optional nullable
string: undefined, null and the empty string (all falsy) collapse to null. -/
def jsStrOrNull (x : Option (Option String)) : Option String :=
  match x with
  | some (some s) => if s = "" then none else some s
  | _ => none

/-- Meaning of (x || null) on an optional nullable integer: undefined, null
and 0 (all falsy) collapse to null.  Used by createMediaAsset for width and
height. -/
def jsIntOrNull (x : Option (Option Int)) : Option Int :=
  match x with
  | some (some n) => if n = 0 then none else some n
  | _ => none

/-- Meaning of (x ? x.toString() : null) on an optional nullable number:
undefined, null and 0 collapse to null.  Used by createMediaAsset for
duration. -/
def jsRatOrNull (x : Option (Option Rat)) : Option Rat :=
  match x with
  | some (some q) => if q = 0 then none else some q
  | _ => none

/-- Meaning of (x?.toString() || null) on an optional nullable number:
undefined and null collapse to null but every number is kept, because
Number.prototype.toString never yields the empty string (0 becomes the truthy
string "0"). -/
def jsNumToStrOrNull (x : Option (Option Rat)) : Option Rat :=
  match x with
  | some (some q) => some q
  | _ => none

/-- Ordering used by the orderBy clause of getTimelineItemsByProject
(src/server/src/handlers/get_timeline_items_by_project.ts): ascending
track_number first, then ascending start_time. -/
def itemOrder (a b : TimelineItem) : Prop :=
  a.track_number < b.track_number ∨
    (a.track_number = b.track_number ∧ a.start_time ≤ b.start_time)

instance : DecidableRel itemOrder := fun a b => by
  unfold itemOrder
  infer_instance

instance : IsTotal TimelineItem itemOrder := by
  constructor
  intro a b
  rcases lt_trichotomy a.track_number b.track_number with h | h | h
  · exact Or.inl (Or.inl h)
  · rcases le_total a.start_time b.start_time with h2 | h2
    · exact Or.inl (Or.inr ⟨h, h2⟩)
    · exact Or.inr (Or.inr ⟨h.symm, h2⟩)
  · exact Or.inr (Or.inl h)

instance : IsTrans TimelineItem itemOrder := by
  constructor
  intro a b c hab hbc
  rcases hab with h1 | ⟨h1, h1t⟩
  · rcases hbc with h2 | ⟨h2, _⟩
    · exact Or.inl (h1.trans h2)
    · exact Or.inl (h2 ▸ h1)
  · rcases hbc with h2 | ⟨h2, h2t⟩
    · exact Or.inl (h1 ▸ h2)
    · exact Or.inr ⟨h1.trans h2, h1t.trans h2t⟩

/-- Inner join of the timeline items of one project with the media assets
table on media_asset_id = id, as built by getTimelineItemsByProject: one
output row per matching media asset row. -/
def joinedTimelineItems (project_id : Nat) (s : Store) : List TimelineItem :=
  (s.timelineItems.filter (fun t => t.project_id == project_id)).flatMap
    (fun t => (s.mediaAssets.filter (fun m => m.id == t.media_asset_id)).map (fun _ => t))

/-- Model of getTimelineItemsByProject
(src/server/src/handlers/get_timeline_items_by_project.ts): the join,
ordered by ascending track_number then ascending start_time.  The numeric
read-back conversions of the source are the identity in this model. -/
def getTimelineItemsByProject (project_id : Nat) (s : Store) : List TimelineItem :=
  List.insertionSort itemOrder (joinedTimelineItems project_id s)

/-- Input of createProject after zod parsing (createProjectInputSchema in
src/server/src/schema.ts); the zod defaults make frame_rate and the
resolution fields always present.  description distinguishes absent (none),
explicit null (some none) and a string (some (some s)). -/
structure CreateProjectInput where
  title : String
  description : Option (Option String)
  frame_rate : Rat
  resolution_width : Int
  resolution_height : Int
  user_id : Nat
deriving Repr, DecidableEq

/-- Validity per createProjectInputSchema: nonempty title, positive
frame_rate and positive integer resolution fields. -/
def validCreateProjectInput (i : CreateProjectInput) : Bool :=
  decide (1 ≤ i.title.length) && decide (0 < i.frame_rate) &&
    decide (0 < i.resolution_width) && decide (0 < i.resolution_height)

/-- Model of createProject (src/server/src/handlers/create_project.ts):
verify the user exists, then insert a project row with status draft, null
duration and falsy descriptions coerced to null. -/
def createProject (i : CreateProjectInput) (now : Nat) (s : Store) :
    Except Err Project × Store :=
  if (s.users.filter (fun u => u.id == i.user_id)).isEmpty then
    (.error (.notFound ("User with id " ++ toString i.user_id ++ " does not exist")), s)
  else
    let row : Project :=
      { id := freshId (s.projects.map (fun p => p.id))
        title := i.title
        description := jsStrOrNull i.description
        status := ProjectStatus.draft
        duration := none
        frame_rate := i.frame_rate
        resolution_width := i.resolution_width
        resolution_height := i.resolution_height
        user_id := i.user_id
        created_at := now
        updated_at := now }
    (.ok row, { s with projects := s.projects ++ [row] })

/-- Input of createMediaAsset after zod parsing (createMediaAssetInputSchema
in src/server/src/schema.ts). -/
structure CreateMediaAssetInput where
  filename : String
  original_filename : String
  file_path : String
  file_size : Rat
  mime_type : String
  media_type : MediaType
  duration : Option (Option Rat)
  width : Option (Option Int)
  height : Option (Option Int)
  user_id : Nat
deriving Repr, DecidableEq

/-- Optional nullable rational that must be positive when a value is given. -/
def optPosRat (x : Option (Option Rat)) : Bool :=
  match x with
  | some (some q) => decide (0 < q)
  | _ => true

/-- Optional nullable integer that must be positive when a value is given. -/
def optPosInt (x : Option (Option Int)) : Bool :=
  match x with
  | some (some n) => decide (0 < n)
  | _ => true

/-- Validity per createMediaAssetInputSchema: nonempty strings, positive
file_size, and positive duration, width and height whenever a value is
given. -/
def validCreateMediaAssetInput (i : CreateMediaAssetInput) : Bool :=
  decide (1 ≤ i.filename.length) && decide (1 ≤ i.original_filename.length) &&
    decide (1 ≤ i.file_path.length) && decide (0 < i.file_size) &&
    decide (1 ≤ i.mime_type.length) &&
    optPosRat i.duration && optPosInt i.width && optPosInt i.height

/-- Model of createMediaAsset (src/server/src/handlers/create_media_asset.ts):
verify the user exists, then insert an asset row; falsy duration, width and
height collapse to null through the JavaScript truthiness coercions of the
source. -/
def createMediaAsset (i : CreateMediaAssetInput) (now : Nat) (s : Store) :
    Except Err MediaAsset × Store :=
  if (s.users.filter (fun u => u.id == i.user_id)).isEmpty then
    (.error (.notFound ("User with id " ++ toString i.user_id ++ " does not exist")), s)
  else
    let row : MediaAsset :=
      { id := freshId (s.mediaAssets.map (fun m => m.id))
        filename := i.filename
        original_filename := i.original_filename
        file_path := i.file_path
        file_size := i.file_size
        mime_type := i.mime_type
        media_type := i.media_type
        duration := jsRatOrNull i.duration
        width := jsIntOrNull i.width
        height := jsIntOrNull i.height
        user_id := i.user_id
        created_at := now
        updated_at := now }
    (.ok row, { s with mediaAssets := s.mediaAssets ++ [row] })

/-- Input of createTimelineItem after zod parsing
(createTimelineItemInputSchema in src/server/src/schema.ts). -/
structure CreateTimelineItemInput where
  project_id : Nat
  media_asset_id : Nat
  track_number : Int
  start_time : Rat
  end_time : Rat
  media_start_offset : Option Rat
  volume : Option (Option Rat)
  opacity : Option (Option Rat)
  position_x : Option (Option Rat)
  position_y : Option (Option Rat)
  scale : Option (Option Rat)
  rotation : Option (Option Rat)
deriving Repr, DecidableEq

/-- Optional nullable rational that must lie in [0, 1] when a value is given. -/
def optIn01 (x : Option (Option Rat)) : Bool :=
  match x with
  | some (some q) => decide (0 ≤ q) && decide (q ≤ 1)
  | _ => true

/-- Validity per createTimelineItemInputSchema, including the refinement
that end_time must be greater than start_time. -/
def validCreateTimelineItemInput (i : CreateTimelineItemInput) : Bool :=
  decide (0 ≤ i.track_number) && decide (0 ≤ i.start_time) &&
    decide (0 < i.end_time) &&
    (match i.media_start_offset with
     | some m => decide (0 ≤ m)
     | none => true) &&
    optIn01 i.volume && optIn01 i.opacity && optPosRat i.scale &&
    decide (i.start_time < i.end_time)

/-- Model of createTimelineItem
(src/server/src/handlers/create_timeline_item.ts): verify that the project
and then the media asset exist, then insert the row; absent
media_start_offset defaults to 0, and the optional numeric fields go through
the (x?.toString() || null) coercion of the source. -/
def createTimelineItem (i : CreateTimelineItemInput) (now : Nat) (s : Store) :
    Except Err TimelineItem × Store :=
  if (s.projects.filter (fun p => p.id == i.project_id)).isEmpty then
    (.error (.notFound ("Project with id " ++ toString i.project_id ++ " not found")), s)
  else if (s.mediaAssets.filter (fun m => m.id == i.media_asset_id)).isEmpty then
    (.error (.notFound ("Media asset with id " ++ toString i.media_asset_id ++ " not found")), s)
  else
    let row : TimelineItem :=
      { id := freshId (s.timelineItems.map (fun t => t.id))
        project_id := i.project_id
        media_asset_id := i.media_asset_id
        track_number := i.track_number
        start_time := i.start_time
        end_time := i.end_time
        media_start_offset := i.media_start_offset.getD 0
        volume := jsNumToStrOrNull i.volume
        opacity := jsNumToStrOrNull i.opacity
        position_x := jsNumToStrOrNull i.position_x
        position_y := jsNumToStrOrNull i.position_y
        scale := jsNumToStrOrNull i.scale
        rotation := jsNumToStrOrNull i.rotation
        created_at := now
        updated_at := now }
    (.ok row, { s with timelineItems := s.timelineItems ++ [row] })

/-- Input of updateProject after zod parsing (updateProjectInputSchema in
src/server/src/schema.ts).  Every field but id is optional; the nullable
fields distinguish absent (none), explicit null (some none) and a value
(some (some v)). -/
structure UpdateProjectInput where
  id : Nat
  title : Option String
  description : Option (Option String)
  status : Option ProjectStatus
  duration : Option (Option Rat)
  frame_rate : Option Rat
  resolution_width : Option Int
  resolution_height : Option Int
deriving Repr, DecidableEq

/-- Validity per updateProjectInputSchema: whenever present, title is
nonempty and frame_rate and the resolution fields are positive. -/
def validUpdateProjectInput (i : UpdateProjectInput) : Bool :=
  (match i.title with
   | some t => decide (1 ≤ t.length)
   | none => true) &&
    (match i.frame_rate with
     | some f => decide (0 < f)
     | none => true) &&
    (match i.resolution_width with
     | some w => decide (0 < w)
     | none => true) &&
    (match i.resolution_height with
     | some h => decide (0 < h)
     | none => true)

/-- Field-by-field effect of the dynamic updateFields object built by
updateProject (src/server/src/handlers/update_project.ts): a field enters
the update exactly when the input field is not undefined; duration goes
through (x?.toString() || null), which keeps every number including 0;
updated_at is always set to the current time. -/
def applyUpdateProject (i : UpdateProjectInput) (now : Nat) (p : Project) : Project :=
  { p with
    title := match i.title with
      | some t => t
      | none => p.title
    description := match i.description with
      | some d => d
      | none => p.description
    status := match i.status with
      | some st => st
      | none => p.status
    duration := match i.duration with
      | some d => jsNumToStrOrNull (some d)
      | none => p.duration
    frame_rate := match i.frame_rate with
      | some f => f
      | none => p.frame_rate
    resolution_width := match i.resolution_width with
      | some w => w
      | none => p.resolution_width
    resolution_height := match i.resolution_height with
      | some h => h
      | none => p.resolution_height
    updated_at := now }

/-- Model of updateProject (src/server/src/handlers/update_project.ts):
check that the project exists, then apply the dynamic update to every row
with the given id and return the first updated row. -/
def updateProject (i : UpdateProjectInput) (now : Nat) (s : Store) :
    Except Err Project × Store :=
  match s.projects.filter (fun p => p.id == i.id) with
  | [] => (.error (.notFound ("Project with id " ++ toString i.id ++ " not found")), s)
  | p :: _ =>
    (.ok (applyUpdateProject i now p),
      { s with projects :=
          s.projects.map (fun q => if q.id == i.id then applyUpdateProject i now q else q) })

/-- Input of updateTimelineItem after zod parsing
(updateTimelineItemInputSchema in src/server/src/schema.ts).  Note that this
schema has no refinement relating start_time and end_time. -/
structure UpdateTimelineItemInput where
  id : Nat
  track_number : Option Int
  start_time : Option Rat
  end_time : Option Rat
  media_start_offset : Option Rat
  volume : Option (Option Rat)
  opacity : Option (Option Rat)
  position_x : Option (Option Rat)
  position_y : Option (Option Rat)
  scale : Option (Option Rat)
  rotation : Option (Option Rat)
deriving Repr, DecidableEq

/-- Validity per updateTimelineItemInputSchema: the per-field bounds of the
create schema, but no cross-field check of start_time against end_time. -/
def validUpdateTimelineItemInput (i : UpdateTimelineItemInput) : Bool :=
  (match i.track_number with
   | some n => decide (0 ≤ n)
   | none => true) &&
    (match i.start_time with
     | some st => decide (0 ≤ st)
     | none => true) &&
    (match i.end_time with
     | some et => decide (0 < et)
     | none => true) &&
    (match i.media_start_offset with
     | some m => decide (0 ≤ m)
     | none => true) &&
    optIn01 i.volume && optIn01 i.opacity && optPosRat i.scale

/-- Field-by-field effect of the updateData object built by
updateTimelineItem (src/server/src/handlers/update_timeline_item.ts). -/
def applyUpdateTimelineItem (i : UpdateTimelineItemInput) (now : Nat)
    (t : TimelineItem) : TimelineItem :=
  { t with
    track_number := match i.track_number with
      | some n => n
      | none => t.track_number
    start_time := match i.start_time with
      | some st => st
      | none => t.start_time
    end_time := match i.end_time with
      | some et => et
      | none => t.end_time
    media_start_offset := match i.media_start_offset with
      | some m => m
      | none => t.media_start_offset
    volume := match i.volume with
      | some v => jsNumToStrOrNull (some v)
      | none => t.volume
    opacity := match i.opacity with
      | some v => jsNumToStrOrNull (some v)
      | none => t.opacity
    position_x := match i.position_x with
      | some v => jsNumToStrOrNull (some v)
      | none => t.position_x
    position_y := match i.position_y with
      | some v => jsNumToStrOrNull (some v)
      | none => t.position_y
    scale := match i.scale with
      | some v => jsNumToStrOrNull (some v)
      | none => t.scale
    rotation := match i.rotation with
      | some v => jsNumToStrOrNull (some v)
      | none => t.rotation
    updated_at := now }

/-- Model of updateTimelineItem
(src/server/src/handlers/update_timeline_item.ts): apply the dynamic update
to every row with the given id, then fail with a not-found error when the
returned row set is empty (the source checks existence only after the
update, which touches no row in that case). -/
def updateTimelineItem (i : UpdateTimelineItemInput) (now : Nat) (s : Store) :
    Except Err TimelineItem × Store :=
  let updated := s.timelineItems.map
    (fun t => if t.id == i.id then applyUpdateTimelineItem i now t else t)
  match updated.filter (fun t => t.id == i.id) with
  | [] => (.error (.notFound ("Timeline item with id " ++ toString i.id ++ " not found")), s)
  | r :: _ => (.ok r, { s with timelineItems := updated })

/-- Model of deleteProject (src/server/src/handlers/delete_project.ts): the
delete of the project row reports the deleted rows; an empty result raises a
not-found error.  The onDelete cascade declared on
timelineItemsTable.project_id (src/server/src/db/schema.ts) removes the
timeline items of the project in the same operation; media assets are not
touched. -/
def deleteProject (id : Nat) (s : Store) : Except Err Bool × Store :=
  if (s.projects.filter (fun p => p.id == id)).isEmpty then
    (.error (.notFound ("Project with id " ++ toString id ++ " not found")), s)
  else
    (.ok true,
      { s with
        projects := s.projects.filter (fun p => !(p.id == id))
        timelineItems := s.timelineItems.filter (fun t => !(t.project_id == id)) })

/-- Model of deleteMediaAsset (src/server/src/handlers/delete_media_asset.ts):
check that the asset exists, then delete every timeline item referencing it,
then delete the asset row. -/
def deleteMediaAsset (id : Nat) (s : Store) : Except Err Bool × Store :=
  if (s.mediaAssets.filter (fun m => m.id == id)).isEmpty then
    (.error (.notFound "Media asset not found"), s)
  else
    let s1 := { s with timelineItems := s.timelineItems.filter (fun t => !(t.media_asset_id == id)) }
    (.ok true, { s1 with mediaAssets := s1.mediaAssets.filter (fun m => !(m.id == id)) })

/-- Model of deleteTimelineItem from src/unnamed/part_010: delete the row
with the given id and report success exactly when the row count of the
delete is positive. -/
def deleteTimelineItem (id : Nat) (s : Store) : Bool × Store :=
  let deleted := s.timelineItems.filter (fun t => t.id == id)
  (0 < deleted.length,
    { s with timelineItems := s.timelineItems.filter (fun t => !(t.id == id)) })

/-- Model of the handler actually wired into the tRPC router
(src/server/src/handlers/delete_timeline_item.ts): a placeholder that
always resolves with success true and never touches the store. -/
def deleteTimelineItemStub (_id : Nat) (s : Store) : Bool × Store :=
  (true, s)

/-- Model of createUser from src/unnamed/part_011, the only createUser
implementation in the repository and the one wired into the tRPC router: a
placeholder that resolves with a user whose id is 0 and never touches the
store, performing no uniqueness check. -/
def createUser (username email : String) (now : Nat) (s : Store) :
    Except Err User × Store :=
  (.ok { id := 0
         username := username
         email := email
         created_at := now
         updated_at := now }, s)

/-- Validity per createUserInputSchema: nonempty username.  The
z.string().email() format check is not modelled; no claim depends on it. -/
def validCreateUserInput (username : String) : Bool :=
  decide (1 ≤ username.length)

/-- tRPC procedure createUser (src/server/src/index.ts): zod parsing, then
the handler. -/
def createUserRPC (username email : String) (now : Nat) (s : Store) :
    Except Err User × Store :=
  if validCreateUserInput username then createUser username email now s
  else (.error (.validation "Invalid input"), s)

/-- tRPC procedure createProject (src/server/src/index.ts): zod parsing,
then the handler. -/
def createProjectRPC (i : CreateProjectInput) (now : Nat) (s : Store) :
    Except Err Project × Store :=
  if validCreateProjectInput i then createProject i now s
  else (.error (.validation "Invalid input"), s)

/-- tRPC procedure updateProject (src/server/src/index.ts): zod parsing,
then the handler. -/
def updateProjectRPC (i : UpdateProjectInput) (now : Nat) (s : Store) :
    Except Err Project × Store :=
  if validUpdateProjectInput i then updateProject i now s
  else (.error (.validation "Invalid input"), s)

/-- tRPC procedure deleteProject (src/server/src/index.ts): the input schema
only requires a numeric id, so parsing always succeeds. -/
def deleteProjectRPC (id : Nat) (s : Store) : Except Err Bool × Store :=
  deleteProject id s

/-- tRPC procedure createMediaAsset (src/server/src/index.ts): zod parsing,
then the handler. -/
def createMediaAssetRPC (i : CreateMediaAssetInput) (now : Nat) (s : Store) :
    Except Err MediaAsset × Store :=
  if validCreateMediaAssetInput i then createMediaAsset i now s
  else (.error (.validation "Invalid input"), s)

/-- tRPC procedure deleteMediaAsset (src/server/src/index.ts). -/
def deleteMediaAssetRPC (id : Nat) (s : Store) : Except Err Bool × Store :=
  deleteMediaAsset id s

/-- tRPC procedure createTimelineItem (src/server/src/index.ts): zod
parsing, then the handler. -/
def createTimelineItemRPC (i : CreateTimelineItemInput) (now : Nat) (s : Store) :
    Except Err TimelineItem × Store :=
  if validCreateTimelineItemInput i then createTimelineItem i now s
  else (.error (.validation "Invalid input"), s)

/-- tRPC procedure updateTimelineItem (src/server/src/index.ts): zod
parsing, then the handler. -/
def updateTimelineItemRPC (i : UpdateTimelineItemInput) (now : Nat) (s : Store) :
    Except Err TimelineItem × Store :=
  if validUpdateTimelineItemInput i then updateTimelineItem i now s
  else (.error (.validation "Invalid input"), s)

/-- tRPC procedure deleteTimelineItem (src/server/src/index.ts), which is
wired to the placeholder handler. -/
def deleteTimelineItemRPC (id : Nat) (s : Store) : Bool × Store :=
  deleteTimelineItemStub id s

/-- Stores reachable from a base store through the mutating procedures of
the tRPC surface (src/server/src/index.ts), each invoked at an arbitrary
clock value. -/
inductive Reach (s0 : Store) : Store → Prop where
  | base : Reach s0 s0
  | stepCreateUser (username email : String) (now : Nat) {s : Store} :
      Reach s0 s → Reach s0 (createUserRPC username email now s).2
  | stepCreateProject (i : CreateProjectInput) (now : Nat) {s : Store} :
      Reach s0 s → Reach s0 (createProjectRPC i now s).2
  | stepUpdateProject (i : UpdateProjectInput) (now : Nat) {s : Store} :
      Reach s0 s → Reach s0 (updateProjectRPC i now s).2
  | stepDeleteProject (id : Nat) {s : Store} :
      Reach s0 s → Reach s0 (deleteProjectRPC id s).2
  | stepCreateMediaAsset (i : CreateMediaAssetInput) (now : Nat) {s : Store} :
      Reach s0 s → Reach s0 (createMediaAssetRPC i now s).2
  | stepDeleteMediaAsset (id : Nat) {s : Store} :
      Reach s0 s → Reach s0 (deleteMediaAssetRPC id s).2
  | stepCreateTimelineItem (i : CreateTimelineItemInput) (now : Nat) {s : Store} :
      Reach s0 s → Reach s0 (createTimelineItemRPC i now s).2
  | stepUpdateTimelineItem (i : UpdateTimelineItemInput) (now : Nat) {s : Store} :
      Reach s0 s → Reach s0 (updateTimelineItemRPC i now s).2
  | stepDeleteTimelineItem (id : Nat) {s : Store} :
      Reach s0 s → Reach s0 (deleteTimelineItemRPC id s).2

/-- Invariant claimed for projects: frame_rate, resolution_width and
resolution_height are always positive. -/
def ProjectInv (s : Store) : Prop :=
  ∀ p ∈ s.projects, 0 < p.frame_rate ∧
    0 < p.resolution_width ∧ 0 < p.resolution_height

instance : DecidablePred ProjectInv := fun s => by
  unfold ProjectInv
  exact List.decidableBAll _ _

/-
Concrete data used to instantiate the theorems, mirroring the fixtures that
the test files of the repository insert directly into the database.
-/

/-- Concrete user row, as seeded by the tests. -/
def demoUser : User :=
  { id := 1, username := "testuser", email := "test@example.com",
    created_at := 0, updated_at := 0 }

/-- Concrete project row owned by demoUser. -/
def demoProject : Project :=
  { id := 1, title := "Test Project", description := none,
    status := ProjectStatus.draft, duration := none, frame_rate := 30,
    resolution_width := 1920, resolution_height := 1080, user_id := 1,
    created_at := 0, updated_at := 0 }

/-- Concrete media asset row owned by demoUser. -/
def demoAsset : MediaAsset :=
  { id := 1, filename := "clip.mp4", original_filename := "clip.mp4",
    file_path := "/uploads/clip.mp4", file_size := 1024,
    mime_type := "video/mp4", media_type := MediaType.video,
    duration := some 120, width := some 1920, height := some 1080,
    user_id := 1, created_at := 0, updated_at := 0 }

/-- Store holding one user, one project and one media asset. -/
def seedStore : Store :=
  { users := [demoUser], projects := [demoProject],
    mediaAssets := [demoAsset], timelineItems := [] }

/-- Concrete timeline item on track 1 starting at 0. -/
def demoItemA : TimelineItem :=
  { id := 1, project_id := 1, media_asset_id := 1, track_number := 1,
    start_time := 0, end_time := 5, media_start_offset := 0, volume := none,
    opacity := none, position_x := none, position_y := none, scale := none,
    rotation := none, created_at := 0, updated_at := 0 }

/-- Concrete timeline item on track 0 starting at 7. -/
def demoItemB : TimelineItem :=
  { id := 2, project_id := 1, media_asset_id := 1, track_number := 0,
    start_time := 7, end_time := 9, media_start_offset := 0, volume := none,
    opacity := none, position_x := none, position_y := none, scale := none,
    rotation := none, created_at := 0, updated_at := 0 }

/-- seedStore with the two timeline items, deliberately not in track order. -/
def itemStore : Store :=
  { seedStore with timelineItems := [demoItemA, demoItemB] }

/-
Claim C1: getTimelineItemsByProject.
-/

/-- Filtering a list whose keys are pairwise distinct for a key that is
present yields exactly one row. -/
theorem filter_eq_singleton_of_nodup {α : Type} (key : α → Nat) (l : List α)
    (aid : Nat) (hnd : (l.map key).Nodup) (hex : ∃ x ∈ l, key x = aid) :
    ∃ x, l.filter (fun y => key y == aid) = [x] := by
  induction l with
  | nil => simp at hex
  | cons a t ih =>
    rw [List.map_cons, List.nodup_cons] at hnd
    by_cases ha : key a = aid
    · refine ⟨a, ?_⟩
      have ht : t.filter (fun y => key y == aid) = [] := by
        rw [List.filter_eq_nil_iff]
        intro y hy
        simp only [beq_iff_eq]
        intro hk
        exact hnd.1 (ha ▸ hk ▸ List.mem_map_of_mem key hy)
      simp [List.filter_cons, ha, ht]
    · have hex2 : ∃ x ∈ t, key x = aid := by
        rcases hex with ⟨x, hx, hk⟩
        rcases List.mem_cons.mp hx with rfl | hxt
        · exact absurd hk ha
        · exact ⟨x, hxt, hk⟩
      rcases ih hnd.2 hex2 with ⟨x, hx⟩
      refine ⟨x, ?_⟩
      simp [List.filter_cons, ha, hx]

/-- A flatMap whose function returns the singleton of its argument is the
identity. -/
theorem flatMap_singleton_id {β : Type} (f : β → List β) :
    ∀ l : List β, (∀ x ∈ l, f x = [x]) → l.flatMap f = l
  | [], _ => rfl
  | a :: t, h => by
      rw [List.flatMap_cons, h a (List.mem_cons_self a t),
        flatMap_singleton_id f t (fun x hx => h x (List.mem_cons_of_mem a hx))]
      rfl

/-- When media asset ids are pairwise distinct and every timeline item
references an existing media asset, the inner join adds and removes
nothing. -/
theorem joinedTimelineItems_eq_filter (pid : Nat) (s : Store)
    (hnd : (s.mediaAssets.map (fun m => m.id)).Nodup)
    (hfk : ∀ t ∈ s.timelineItems, ∃ m ∈ s.mediaAssets, m.id = t.media_asset_id) :
    joinedTimelineItems pid s = s.timelineItems.filter (fun t => t.project_id == pid) := by
  unfold joinedTimelineItems
  apply flatMap_singleton_id
  intro t ht
  have htm : t ∈ s.timelineItems := List.mem_of_mem_filter ht
  rcases filter_eq_singleton_of_nodup (fun m => m.id) s.mediaAssets
      t.media_asset_id hnd (hfk t htm) with ⟨m, hm⟩
  rw [hm]
  rfl

/-- C1: for every project_id, getTimelineItemsByProject returns the timeline
items of that project in sorted order: for any two items a and b in the
result, if a appears before b then a.track_number < b.track_number, or
a.track_number = b.track_number and a.start_time ≤ b.start_time.  Every
returned item belongs to the project; under the foreign-key discipline of
the schema (distinct media asset ids, every item referencing an existing
asset) the result is a permutation of exactly the items of the project; and
the result is empty when the project has no items, in particular when it
does not exist. -/
theorem getTimelineItemsByProject_sorted_complete (pid : Nat) (s : Store) :
    List.Sorted itemOrder (getTimelineItemsByProject pid s) ∧
    (∀ t ∈ getTimelineItemsByProject pid s, t.project_id = pid) ∧
    ((s.mediaAssets.map (fun m => m.id)).Nodup →
      (∀ t ∈ s.timelineItems, ∃ m ∈ s.mediaAssets, m.id = t.media_asset_id) →
      List.Perm (getTimelineItemsByProject pid s)
        (s.timelineItems.filter (fun t => t.project_id == pid))) ∧
    (s.timelineItems.filter (fun t => t.project_id == pid) = [] →
      getTimelineItemsByProject pid s = []) := by
  refine ⟨List.sorted_insertionSort itemOrder _, ?_, ?_, ?_⟩
  · intro t ht
    have hj : t ∈ joinedTimelineItems pid s :=
      (List.perm_insertionSort itemOrder _).mem_iff.mp ht
    rcases List.mem_flatMap.mp hj with ⟨a, ha, hta⟩
    rcases List.mem_map.mp hta with ⟨m, _, hat⟩
    cases hat
    exact beq_iff_eq.mp (List.mem_filter.mp ha).2
  · intro hnd hfk
    have hje := joinedTimelineItems_eq_filter pid s hnd hfk
    exact hje ▸ List.perm_insertionSort itemOrder _
  · intro h
    unfold getTimelineItemsByProject joinedTimelineItems
    rw [h]
    rfl

/-- Witness: the main theorem applied to the concrete two-item store for
project 1, and to the item-free project 2. -/
theorem getTimelineItemsByProject_sorted_complete_witness :
    List.Perm (getTimelineItemsByProject 1 itemStore)
      (itemStore.timelineItems.filter (fun t => t.project_id == 1)) ∧
    getTimelineItemsByProject 2 itemStore = [] :=
  ⟨(getTimelineItemsByProject_sorted_complete 1 itemStore).2.2.1
      (by decide) (by decide),
    (getTimelineItemsByProject_sorted_complete 2 itemStore).2.2.2 (by decide)⟩

/-
Claim C2: createTimelineItem validation and the end_time > start_time
invariant.
-/

/-- Valid createTimelineItem input: track 0, start 0, end 5. -/
def validItemInput : CreateTimelineItemInput :=
  { project_id := 1, media_asset_id := 1, track_number := 0, start_time := 0,
    end_time := 5, media_start_offset := none, volume := none, opacity := none,
    position_x := none, position_y := none, scale := none, rotation := none }

/-- The same input with end_time 3 not above start_time 5. -/
def invalidItemInput : CreateTimelineItemInput :=
  { validItemInput with start_time := 5, end_time := 3 }

/-- Store after creating validItemInput in seedStore at clock 1. -/
def storeAfterCreate : Store :=
  (createTimelineItemRPC validItemInput 1 seedStore).2

/-- The row that the creation of validItemInput persists and returns. -/
def demoCreatedItem : TimelineItem :=
  { id := 1, project_id := 1, media_asset_id := 1, track_number := 0,
    start_time := 0, end_time := 5, media_start_offset := 0, volume := none,
    opacity := none, position_x := none, position_y := none, scale := none,
    rotation := none, created_at := 1, updated_at := 1 }

/-- Update input moving only start_time to 10, beyond the stored end_time 5;
updateTimelineItemInputSchema accepts it because it has no cross-field
refinement. -/
def badStartUpdateInput : UpdateTimelineItemInput :=
  { id := 1, track_number := none, start_time := some 10, end_time := none,
    media_start_offset := none, volume := none, opacity := none,
    position_x := none, position_y := none, scale := none, rotation := none }

/-- Store after the start_time update at clock 2. -/
def storeAfterBadUpdate : Store :=
  (updateTimelineItemRPC badStartUpdateInput 2 storeAfterCreate).2

/-- C2 counterexample: after creating a valid item (start 0, end 5) and then
updating only its start_time to 10 through the public updateTimelineItem
procedure, the store persists a timeline item with end_time ≤ start_time, so
it is not the case that every persisted TimelineItem satisfies
end_time > start_time. -/
theorem persisted_item_violates_end_after_start :
    ∃ t ∈ storeAfterBadUpdate.timelineItems, t.end_time ≤ t.start_time := by
  decide

/-- C2 amended: every call of createTimelineItem with end_time ≤ start_time
fails with a ValidationError and leaves the store unchanged, and every
timeline item persisted by a successful createTimelineItem satisfies
end_time > start_time at creation time; updateTimelineItem, whose input
schema has no such refinement, can later break the inequality. -/
theorem createTimelineItem_validates_end_after_start :
    (∀ (i : CreateTimelineItemInput) (now : Nat) (s : Store),
      i.end_time ≤ i.start_time →
      createTimelineItemRPC i now s = (.error (.validation "Invalid input"), s)) ∧
    (∀ (i : CreateTimelineItemInput) (now : Nat) (s : Store) (r : TimelineItem)
      (s2 : Store), createTimelineItemRPC i now s = (.ok r, s2) →
      r.start_time < r.end_time ∧ s2.timelineItems = s.timelineItems ++ [r]) := by
  constructor
  · intro i now s h
    have hvf : ¬ (validCreateTimelineItemInput i = true) := by
      intro hvt
      simp only [validCreateTimelineItemInput, Bool.and_eq_true,
        decide_eq_true_eq] at hvt
      exact absurd hvt.2 (not_lt.mpr h)
    unfold createTimelineItemRPC
    rw [if_neg hvf]
  · intro i now s r s2 hEq
    by_cases hv : validCreateTimelineItemInput i = true
    · have hlt : i.start_time < i.end_time := by
        simp only [validCreateTimelineItemInput, Bool.and_eq_true,
          decide_eq_true_eq] at hv
        exact hv.2
      by_cases hp : (s.projects.filter (fun p => p.id == i.project_id)).isEmpty = true
      · simp [createTimelineItemRPC, createTimelineItem, hv, hp] at hEq
      · by_cases hm : (s.mediaAssets.filter (fun m => m.id == i.media_asset_id)).isEmpty = true
        · simp [createTimelineItemRPC, createTimelineItem, hv, hp, hm] at hEq
        · simp [createTimelineItemRPC, createTimelineItem, hv, hp, hm] at hEq
          obtain ⟨hr, hs⟩ := hEq
          subst hr
          constructor
          · simpa using hlt
          · rw [← hs]
    · simp [createTimelineItemRPC, hv] at hEq

/-- Witness: the amended theorem applied to the invalid concrete input and
to the successful concrete creation. -/
theorem createTimelineItem_validates_end_after_start_witness :
    createTimelineItemRPC invalidItemInput 1 seedStore =
      (.error (.validation "Invalid input"), seedStore) ∧
    (demoCreatedItem.start_time < demoCreatedItem.end_time ∧
      storeAfterCreate.timelineItems = seedStore.timelineItems ++ [demoCreatedItem]) :=
  ⟨createTimelineItem_validates_end_after_start.1 invalidItemInput 1 seedStore
      (by decide),
    createTimelineItem_validates_end_after_start.2 validItemInput 1 seedStore
      demoCreatedItem storeAfterCreate (by rfl)⟩

/-
Claim C3: deleteTimelineItem.
-/

/-- C3: the deleteTimelineItem handler wired into the tRPC router
(src/server/src/handlers/delete_timeline_item.ts) is a placeholder that
reports success and touches nothing, diverging from the behaviour its own
test file and the implementation in src/unnamed/part_010 specify: on the
seeded store, which has no timeline item with id 999999, the wired handler
returns success true while the part_010 implementation returns success
false, and on the store holding item 1 the wired handler deletes nothing
while the part_010 implementation removes exactly that row. -/
theorem deleteTimelineItem_placeholder_diverges :
    deleteTimelineItemRPC 999999 seedStore = (true, seedStore) ∧
    deleteTimelineItem 999999 seedStore = (false, seedStore) ∧
    deleteTimelineItemStub 1 storeAfterCreate = (true, storeAfterCreate) ∧
    (deleteTimelineItem 1 storeAfterCreate).1 = true ∧
    (deleteTimelineItem 1 storeAfterCreate).2.timelineItems = [] := by
  decide

/-
Claims C5 and C6: cascading deletes.
-/

/-- Splitting a list by a boolean predicate preserves its length. -/
theorem length_filter_not_add {α : Type} (p : α → Bool) :
    ∀ l : List α, (l.filter (fun a => !(p a))).length + (l.filter p).length = l.length
  | [] => rfl
  | a :: t => by
    have ih := length_filter_not_add p t
    by_cases h : p a = true <;> simp [List.filter_cons, h] <;> omega

/-- C5: deleteMediaAsset fails with NotFoundError "Media asset not found"
and leaves the store unchanged when the asset id is absent; otherwise it
deletes every timeline item referencing the asset (all M of them, by the
length count) and the asset row itself, keeps every other item and asset,
and a subsequent lookup of the asset id finds nothing. -/
theorem deleteMediaAsset_removes_children_then_asset (id : Nat) (s : Store) :
    ((s.mediaAssets.filter (fun m => m.id == id)).isEmpty = true →
      deleteMediaAsset id s = (.error (.notFound "Media asset not found"), s)) ∧
    ((s.mediaAssets.filter (fun m => m.id == id)).isEmpty = false →
      (deleteMediaAsset id s).1 = .ok true ∧
      (∀ t ∈ (deleteMediaAsset id s).2.timelineItems, t.media_asset_id ≠ id) ∧
      (∀ t ∈ s.timelineItems, t.media_asset_id ≠ id →
        t ∈ (deleteMediaAsset id s).2.timelineItems) ∧
      ((deleteMediaAsset id s).2.timelineItems.length +
        (s.timelineItems.filter (fun t => t.media_asset_id == id)).length =
        s.timelineItems.length) ∧
      (∀ m ∈ (deleteMediaAsset id s).2.mediaAssets, m.id ≠ id) ∧
      (∀ m ∈ s.mediaAssets, m.id ≠ id → m ∈ (deleteMediaAsset id s).2.mediaAssets) ∧
      (deleteMediaAsset id s).2.mediaAssets.find? (fun m => m.id == id) = none ∧
      (deleteMediaAsset id s).2.users = s.users ∧
      (deleteMediaAsset id s).2.projects = s.projects) := by
  constructor
  · intro h
    unfold deleteMediaAsset
    rw [if_pos h]
  · intro h
    have hne : ¬ ((s.mediaAssets.filter (fun m => m.id == id)).isEmpty = true) := by
      simp [h]
    unfold deleteMediaAsset
    rw [if_neg hne]
    refine ⟨rfl, ?_, ?_, ?_, ?_, ?_, ?_, rfl, rfl⟩
    · intro t ht
      simpa using (List.mem_filter.mp ht).2
    · intro t ht hne2
      exact List.mem_filter.mpr ⟨ht, by simpa using hne2⟩
    · exact length_filter_not_add (fun t => t.media_asset_id == id) s.timelineItems
    · intro m hm
      simpa using (List.mem_filter.mp hm).2
    · intro m hm hne2
      exact List.mem_filter.mpr ⟨hm, by simpa using hne2⟩
    · rw [List.find?_eq_none]
      intro m hm
      simpa using (List.mem_filter.mp hm).2

/-- Witness: the main theorem applied before and after the concrete asset
exists — asset 1 is present in itemStore, where both timeline items
reference it, and id 2 is absent. -/
theorem deleteMediaAsset_removes_children_then_asset_witness :
    deleteMediaAsset 2 itemStore =
      (.error (.notFound "Media asset not found"), itemStore) ∧
    ((deleteMediaAsset 1 itemStore).1 = .ok true ∧
      (deleteMediaAsset 1 itemStore).2.timelineItems.length +
        (itemStore.timelineItems.filter (fun t => t.media_asset_id == 1)).length =
        itemStore.timelineItems.length ∧
      (deleteMediaAsset 1 itemStore).2.mediaAssets.find? (fun m => m.id == 1) = none) :=
  ⟨(deleteMediaAsset_removes_children_then_asset 2 itemStore).1 (by decide),
    ⟨((deleteMediaAsset_removes_children_then_asset 1 itemStore).2 (by decide)).1,
      ((deleteMediaAsset_removes_children_then_asset 1 itemStore).2 (by decide)).2.2.2.1,
      ((deleteMediaAsset_removes_children_then_asset 1 itemStore).2 (by decide)).2.2.2.2.2.2.1⟩⟩

/-- C6: deleteProject fails with NotFoundError and leaves the store
unchanged when the project id is absent; otherwise it removes the project
row and, through the onDelete cascade of timelineItemsTable.project_id,
exactly the N timeline items of the project, while the media assets table
(and the users table) are byte-for-byte untouched. -/
theorem deleteProject_cascades_items_keeps_assets (id : Nat) (s : Store) :
    ((s.projects.filter (fun p => p.id == id)).isEmpty = true →
      deleteProject id s =
        (.error (.notFound ("Project with id " ++ toString id ++ " not found")), s)) ∧
    ((s.projects.filter (fun p => p.id == id)).isEmpty = false →
      (deleteProject id s).1 = .ok true ∧
      (∀ p ∈ (deleteProject id s).2.projects, p.id ≠ id) ∧
      (∀ q ∈ s.projects, q.id ≠ id → q ∈ (deleteProject id s).2.projects) ∧
      (∀ t ∈ (deleteProject id s).2.timelineItems, t.project_id ≠ id) ∧
      (∀ t ∈ s.timelineItems, t.project_id ≠ id →
        t ∈ (deleteProject id s).2.timelineItems) ∧
      ((deleteProject id s).2.timelineItems.length +
        (s.timelineItems.filter (fun t => t.project_id == id)).length =
        s.timelineItems.length) ∧
      (deleteProject id s).2.mediaAssets = s.mediaAssets ∧
      (deleteProject id s).2.users = s.users) := by
  constructor
  · intro h
    unfold deleteProject
    rw [if_pos h]
  · intro h
    have hne : ¬ ((s.projects.filter (fun p => p.id == id)).isEmpty = true) := by
      simp [h]
    unfold deleteProject
    rw [if_neg hne]
    refine ⟨rfl, ?_, ?_, ?_, ?_, ?_, rfl, rfl⟩
    · intro p hp
      simpa using (List.mem_filter.mp hp).2
    · intro q hq hne2
      exact List.mem_filter.mpr ⟨hq, by simpa using hne2⟩
    · intro t ht
      simpa using (List.mem_filter.mp ht).2
    · intro t ht hne2
      exact List.mem_filter.mpr ⟨ht, by simpa using hne2⟩
    · exact length_filter_not_add (fun t => t.project_id == id) s.timelineItems

/-- Witness: the main theorem applied to the two-item store — project 1
holds both timeline items and both reference media asset 1, which survives
the delete; id 2 is absent. -/
theorem deleteProject_cascades_items_keeps_assets_witness :
    deleteProject 2 itemStore =
      (.error (.notFound "Project with id 2 not found"), itemStore) ∧
    ((deleteProject 1 itemStore).1 = .ok true ∧
      (deleteProject 1 itemStore).2.timelineItems.length +
        (itemStore.timelineItems.filter (fun t => t.project_id == 1)).length =
        itemStore.timelineItems.length ∧
      (deleteProject 1 itemStore).2.mediaAssets = itemStore.mediaAssets) :=
  ⟨(deleteProject_cascades_items_keeps_assets 2 itemStore).1 (by decide),
    ⟨((deleteProject_cascades_items_keeps_assets 1 itemStore).2 (by decide)).1,
      ((deleteProject_cascades_items_keeps_assets 1 itemStore).2 (by decide)).2.2.2.2.2.1,
      ((deleteProject_cascades_items_keeps_assets 1 itemStore).2 (by decide)).2.2.2.2.2.2.1⟩⟩

/-
Claim C7: createUser.
-/

/-- C7: the only createUser implementation in the repository
(src/unnamed/part_011, wired into the tRPC router) is a placeholder that
diverges from its own test file: invoked with the username and email of the
already-present demoUser it succeeds with id 0 instead of failing on the
unique constraints, and it persists nothing — the users table is left
unchanged. -/
theorem createUser_placeholder_diverges :
    (createUserRPC "testuser" "test@example.com" 5 seedStore).1 =
      .ok { id := 0, username := "testuser", email := "test@example.com",
            created_at := 5, updated_at := 5 } ∧
    (createUserRPC "testuser" "test@example.com" 5 seedStore).2 = seedStore ∧
    demoUser ∈ seedStore.users ∧ demoUser.username = "testuser" ∧
    demoUser.email = "test@example.com" :=
  ⟨rfl, rfl, by decide, rfl, rfl⟩

/-
Claim C4: partial updates change only the provided fields.
-/

/-- Filtering for the key of a member of a list with pairwise distinct keys
yields exactly that member. -/
theorem filter_eq_singleton_self {α : Type} (key : α → Nat) (l : List α)
    (x : α) (hx : x ∈ l) (hnd : (l.map key).Nodup) :
    l.filter (fun y => key y == key x) = [x] := by
  rcases filter_eq_singleton_of_nodup key l (key x) hnd ⟨x, hx, rfl⟩ with ⟨z, hz⟩
  have hxmem : x ∈ l.filter (fun y => key y == key x) :=
    List.mem_filter.mpr ⟨hx, by simp⟩
  rw [hz] at hxmem
  rcases List.mem_singleton.mp hxmem with rfl
  exact hz

/-- C4: updateProject and updateTimelineItem change only the fields present
in the input: every absent field keeps its previous value, an explicit null
clears a nullable field (distinguished from an absent field), updated_at is
set to the current clock and therefore advances strictly forward, and every
other row and every other table is untouched. -/
theorem updates_change_only_given_fields
    (i : UpdateProjectInput) (j : UpdateTimelineItemInput) (now now2 : Nat)
    (s s2 : Store) (p : Project) (t : TimelineItem)
    (hp : p ∈ s.projects) (hpid : p.id = i.id)
    (hnd : (s.projects.map (fun q => q.id)).Nodup)
    (hclock : p.updated_at < now)
    (ht : t ∈ s2.timelineItems) (htid : t.id = j.id)
    (hnd2 : (s2.timelineItems.map (fun u => u.id)).Nodup)
    (hclock2 : t.updated_at < now2) :
    ((updateProject i now s).1 = Except.ok (applyUpdateProject i now p) ∧
      (i.title = none → (applyUpdateProject i now p).title = p.title) ∧
      (∀ v, i.title = some v → (applyUpdateProject i now p).title = v) ∧
      (i.description = none →
        (applyUpdateProject i now p).description = p.description) ∧
      (i.description = some none →
        (applyUpdateProject i now p).description = none) ∧
      (∀ d, i.description = some (some d) →
        (applyUpdateProject i now p).description = some d) ∧
      (i.status = none → (applyUpdateProject i now p).status = p.status) ∧
      (∀ v, i.status = some v → (applyUpdateProject i now p).status = v) ∧
      (i.duration = none → (applyUpdateProject i now p).duration = p.duration) ∧
      (i.duration = some none → (applyUpdateProject i now p).duration = none) ∧
      (∀ x, i.duration = some (some x) →
        (applyUpdateProject i now p).duration = some x) ∧
      (i.frame_rate = none →
        (applyUpdateProject i now p).frame_rate = p.frame_rate) ∧
      (∀ v, i.frame_rate = some v →
        (applyUpdateProject i now p).frame_rate = v) ∧
      (i.resolution_width = none →
        (applyUpdateProject i now p).resolution_width = p.resolution_width) ∧
      (∀ v, i.resolution_width = some v →
        (applyUpdateProject i now p).resolution_width = v) ∧
      (i.resolution_height = none →
        (applyUpdateProject i now p).resolution_height = p.resolution_height) ∧
      (∀ v, i.resolution_height = some v →
        (applyUpdateProject i now p).resolution_height = v) ∧
      (applyUpdateProject i now p).id = p.id ∧
      (applyUpdateProject i now p).user_id = p.user_id ∧
      (applyUpdateProject i now p).created_at = p.created_at ∧
      (applyUpdateProject i now p).updated_at = now ∧
      p.updated_at < (applyUpdateProject i now p).updated_at ∧
      (∀ q ∈ s.projects, q.id ≠ i.id → q ∈ (updateProject i now s).2.projects) ∧
      (∀ q ∈ (updateProject i now s).2.projects, q.id ≠ i.id → q ∈ s.projects) ∧
      applyUpdateProject i now p ∈ (updateProject i now s).2.projects ∧
      (updateProject i now s).2.users = s.users ∧
      (updateProject i now s).2.mediaAssets = s.mediaAssets ∧
      (updateProject i now s).2.timelineItems = s.timelineItems) ∧
    ((updateTimelineItem j now2 s2).1 =
        Except.ok (applyUpdateTimelineItem j now2 t) ∧
      (j.track_number = none →
        (applyUpdateTimelineItem j now2 t).track_number = t.track_number) ∧
      (∀ v, j.track_number = some v →
        (applyUpdateTimelineItem j now2 t).track_number = v) ∧
      (j.start_time = none →
        (applyUpdateTimelineItem j now2 t).start_time = t.start_time) ∧
      (∀ v, j.start_time = some v →
        (applyUpdateTimelineItem j now2 t).start_time = v) ∧
      (j.end_time = none →
        (applyUpdateTimelineItem j now2 t).end_time = t.end_time) ∧
      (∀ v, j.end_time = some v →
        (applyUpdateTimelineItem j now2 t).end_time = v) ∧
      (j.media_start_offset = none →
        (applyUpdateTimelineItem j now2 t).media_start_offset = t.media_start_offset) ∧
      (∀ v, j.media_start_offset = some v →
        (applyUpdateTimelineItem j now2 t).media_start_offset = v) ∧
      (j.volume = none → (applyUpdateTimelineItem j now2 t).volume = t.volume) ∧
      (j.volume = some none → (applyUpdateTimelineItem j now2 t).volume = none) ∧
      (∀ x, j.volume = some (some x) →
        (applyUpdateTimelineItem j now2 t).volume = some x) ∧
      (j.opacity = none → (applyUpdateTimelineItem j now2 t).opacity = t.opacity) ∧
      (j.opacity = some none → (applyUpdateTimelineItem j now2 t).opacity = none) ∧
      (∀ x, j.opacity = some (some x) →
        (applyUpdateTimelineItem j now2 t).opacity = some x) ∧
      (j.position_x = none →
        (applyUpdateTimelineItem j now2 t).position_x = t.position_x) ∧
      (j.position_x = some none →
        (applyUpdateTimelineItem j now2 t).position_x = none) ∧
      (∀ x, j.position_x = some (some x) →
        (applyUpdateTimelineItem j now2 t).position_x = some x) ∧
      (j.position_y = none →
        (applyUpdateTimelineItem j now2 t).position_y = t.position_y) ∧
      (j.position_y = some none →
        (applyUpdateTimelineItem j now2 t).position_y = none) ∧
      (∀ x, j.position_y = some (some x) →
        (applyUpdateTimelineItem j now2 t).position_y = some x) ∧
      (j.scale = none → (applyUpdateTimelineItem j now2 t).scale = t.scale) ∧
      (j.scale = some none → (applyUpdateTimelineItem j now2 t).scale = none) ∧
      (∀ x, j.scale = some (some x) →
        (applyUpdateTimelineItem j now2 t).scale = some x) ∧
      (j.rotation = none →
        (applyUpdateTimelineItem j now2 t).rotation = t.rotation) ∧
      (j.rotation = some none →
        (applyUpdateTimelineItem j now2 t).rotation = none) ∧
      (∀ x, j.rotation = some (some x) →
        (applyUpdateTimelineItem j now2 t).rotation = some x) ∧
      (applyUpdateTimelineItem j now2 t).id = t.id ∧
      (applyUpdateTimelineItem j now2 t).project_id = t.project_id ∧
      (applyUpdateTimelineItem j now2 t).media_asset_id = t.media_asset_id ∧
      (applyUpdateTimelineItem j now2 t).created_at = t.created_at ∧
      (applyUpdateTimelineItem j now2 t).updated_at = now2 ∧
      t.updated_at < (applyUpdateTimelineItem j now2 t).updated_at ∧
      (∀ u ∈ s2.timelineItems, u.id ≠ j.id →
        u ∈ (updateTimelineItem j now2 s2).2.timelineItems) ∧
      (∀ u ∈ (updateTimelineItem j now2 s2).2.timelineItems, u.id ≠ j.id →
        u ∈ s2.timelineItems) ∧
      applyUpdateTimelineItem j now2 t ∈
        (updateTimelineItem j now2 s2).2.timelineItems ∧
      (updateTimelineItem j now2 s2).2.users = s2.users ∧
      (updateTimelineItem j now2 s2).2.projects = s2.projects ∧
      (updateTimelineItem j now2 s2).2.mediaAssets = s2.mediaAssets) := by
  have hfP : s.projects.filter (fun q => q.id == i.id) = [p] := by
    rw [← hpid]
    exact filter_eq_singleton_self (fun q => q.id) s.projects p hp hnd
  have hEqP : updateProject i now s =
      (Except.ok (applyUpdateProject i now p),
        { s with projects :=
            s.projects.map (fun q => if q.id == i.id then applyUpdateProject i now q else q) }) := by
    simp only [updateProject]
    rw [hfP]
  have hfT : s2.timelineItems.filter (fun u => u.id == j.id) = [t] := by
    rw [← htid]
    exact filter_eq_singleton_self (fun u => u.id) s2.timelineItems t ht hnd2
  have hcongr : ∀ u ∈ s2.timelineItems,
      ((fun u : TimelineItem => u.id == j.id) ∘
        (fun u => if u.id == j.id then applyUpdateTimelineItem j now2 u else u)) u =
      (u.id == j.id) := by
    intro u _
    by_cases hc : u.id = j.id
    · simp [Function.comp, applyUpdateTimelineItem, hc]
    · simp [Function.comp, hc]
  have hfl : (s2.timelineItems.map
        (fun u => if u.id == j.id then applyUpdateTimelineItem j now2 u else u)).filter
        (fun u => u.id == j.id) = [applyUpdateTimelineItem j now2 t] := by
    rw [List.filter_map, List.filter_congr hcongr, hfT]
    simp [htid]
  have hEqT : updateTimelineItem j now2 s2 =
      (Except.ok (applyUpdateTimelineItem j now2 t),
        { s2 with timelineItems :=
            (s2.timelineItems.map (fun u => if u.id == j.id then applyUpdateTimelineItem j now2 u else u)) }) := by
    simp only [updateTimelineItem]
    rw [hfl]
  constructor
  · refine ⟨by rw [hEqP],
      fun h => by simp [applyUpdateProject, h],
      fun v h => by simp [applyUpdateProject, h],
      fun h => by simp [applyUpdateProject, h],
      fun h => by simp [applyUpdateProject, h],
      fun d h => by simp [applyUpdateProject, h],
      fun h => by simp [applyUpdateProject, h],
      fun v h => by simp [applyUpdateProject, h],
      fun h => by simp [applyUpdateProject, h],
      fun h => by simp [applyUpdateProject, jsNumToStrOrNull, h],
      fun x h => by simp [applyUpdateProject, jsNumToStrOrNull, h],
      fun h => by simp [applyUpdateProject, h],
      fun v h => by simp [applyUpdateProject, h],
      fun h => by simp [applyUpdateProject, h],
      fun v h => by simp [applyUpdateProject, h],
      fun h => by simp [applyUpdateProject, h],
      fun v h => by simp [applyUpdateProject, h],
      rfl, rfl, rfl, rfl,
      by simpa [applyUpdateProject] using hclock,
      ?_, ?_, ?_, by rw [hEqP], by rw [hEqP], by rw [hEqP]⟩
    · intro q hq hne2
      rw [hEqP]
      have hmm := List.mem_map_of_mem
        (fun q => if q.id == i.id then applyUpdateProject i now q else q) hq
      simpa [hne2] using hmm
    · intro q hq hne2
      rw [hEqP] at hq
      rcases List.mem_map.mp hq with ⟨a, ha, hfa⟩
      by_cases hcase : a.id = i.id
      · exfalso
        rw [if_pos (by simp [hcase])] at hfa
        have : q.id = a.id := by
          rw [← hfa]
          simp [applyUpdateProject]
        rw [hcase] at this
        exact hne2 this
      · rw [if_neg (by simp [hcase])] at hfa
        rw [← hfa]
        exact ha
    · rw [hEqP]
      have hmm := List.mem_map_of_mem
        (fun q => if q.id == i.id then applyUpdateProject i now q else q) hp
      simpa [hpid] using hmm
  · refine ⟨by rw [hEqT],
      fun h => by simp [applyUpdateTimelineItem, h],
      fun v h => by simp [applyUpdateTimelineItem, h],
      fun h => by simp [applyUpdateTimelineItem, h],
      fun v h => by simp [applyUpdateTimelineItem, h],
      fun h => by simp [applyUpdateTimelineItem, h],
      fun v h => by simp [applyUpdateTimelineItem, h],
      fun h => by simp [applyUpdateTimelineItem, h],
      fun v h => by simp [applyUpdateTimelineItem, h],
      fun h => by simp [applyUpdateTimelineItem, h],
      fun h => by simp [applyUpdateTimelineItem, jsNumToStrOrNull, h],
      fun x h => by simp [applyUpdateTimelineItem, jsNumToStrOrNull, h],
      fun h => by simp [applyUpdateTimelineItem, h],
      fun h => by simp [applyUpdateTimelineItem, jsNumToStrOrNull, h],
      fun x h => by simp [applyUpdateTimelineItem, jsNumToStrOrNull, h],
      fun h => by simp [applyUpdateTimelineItem, h],
      fun h => by simp [applyUpdateTimelineItem, jsNumToStrOrNull, h],
      fun x h => by simp [applyUpdateTimelineItem, jsNumToStrOrNull, h],
      fun h => by simp [applyUpdateTimelineItem, h],
      fun h => by simp [applyUpdateTimelineItem, jsNumToStrOrNull, h],
      fun x h => by simp [applyUpdateTimelineItem, jsNumToStrOrNull, h],
      fun h => by simp [applyUpdateTimelineItem, h],
      fun h => by simp [applyUpdateTimelineItem, jsNumToStrOrNull, h],
      fun x h => by simp [applyUpdateTimelineItem, jsNumToStrOrNull, h],
      fun h => by simp [applyUpdateTimelineItem, h],
      fun h => by simp [applyUpdateTimelineItem, jsNumToStrOrNull, h],
      fun x h => by simp [applyUpdateTimelineItem, jsNumToStrOrNull, h],
      rfl, rfl, rfl, rfl, rfl,
      by simpa [applyUpdateTimelineItem] using hclock2,
      ?_, ?_, ?_, by rw [hEqT], by rw [hEqT], by rw [hEqT]⟩
    · intro u hu hne2
      rw [hEqT]
      have hmm := List.mem_map_of_mem
        (fun u => if u.id == j.id then applyUpdateTimelineItem j now2 u else u) hu
      simpa [hne2] using hmm
    · intro u hu hne2
      rw [hEqT] at hu
      rcases List.mem_map.mp hu with ⟨a, ha, hfa⟩
      by_cases hcase : a.id = j.id
      · exfalso
        rw [if_pos (by simp [hcase])] at hfa
        have : u.id = a.id := by
          rw [← hfa]
          simp [applyUpdateTimelineItem]
        rw [hcase] at this
        exact hne2 this
      · rw [if_neg (by simp [hcase])] at hfa
        rw [← hfa]
        exact ha
    · rw [hEqT]
      have hmm := List.mem_map_of_mem
        (fun u => if u.id == j.id then applyUpdateTimelineItem j now2 u else u) ht
      simpa [htid] using hmm

/-- Concrete partial project update: clears description with an explicit
null, sets duration 42 and frame_rate 24, leaves everything else absent. -/
def demoProjectUpdate : UpdateProjectInput :=
  { id := 1, title := none, description := some none, status := none,
    duration := some (some 42), frame_rate := some 24,
    resolution_width := none, resolution_height := none }

/-- Concrete partial timeline item update: sets volume one half, clears
opacity with an explicit null, leaves everything else absent. -/
def demoItemUpdate : UpdateTimelineItemInput :=
  { id := 2, track_number := none, start_time := none, end_time := none,
    media_start_offset := none, volume := some (some (1 / 2)),
    opacity := some none, position_x := none, position_y := none,
    scale := none, rotation := none }

/-- Witness: the main theorem applied to the concrete partial updates of
demoProject in seedStore and of demoItemB in itemStore. -/
theorem updates_change_only_given_fields_witness :
    (updateProject demoProjectUpdate 3 seedStore).1 =
      Except.ok (applyUpdateProject demoProjectUpdate 3 demoProject) ∧
    (applyUpdateProject demoProjectUpdate 3 demoProject).title = demoProject.title ∧
    (applyUpdateProject demoProjectUpdate 3 demoProject).description = none ∧
    (applyUpdateProject demoProjectUpdate 3 demoProject).duration = some 42 ∧
    demoProject.updated_at <
      (applyUpdateProject demoProjectUpdate 3 demoProject).updated_at ∧
    (updateTimelineItem demoItemUpdate 4 itemStore).1 =
      Except.ok (applyUpdateTimelineItem demoItemUpdate 4 demoItemB) ∧
    (applyUpdateTimelineItem demoItemUpdate 4 demoItemB).volume = some (1 / 2) ∧
    (applyUpdateTimelineItem demoItemUpdate 4 demoItemB).opacity = none ∧
    (applyUpdateTimelineItem demoItemUpdate 4 demoItemB).start_time =
      demoItemB.start_time ∧
    demoItemB.updated_at <
      (applyUpdateTimelineItem demoItemUpdate 4 demoItemB).updated_at := by
  have h := updates_change_only_given_fields demoProjectUpdate demoItemUpdate 3 4
    seedStore itemStore demoProject demoItemB (by decide) (by decide) (by decide)
    (by decide) (by decide) (by decide) (by decide) (by decide)
  obtain ⟨h1, h2, h3, h4, h5, h6, h7, h8, h9, h10, h11, h12, h13, h14, h15, h16,
    h17, h18, h19, h20, h21, h22, hrest⟩ := h.1
  obtain ⟨g1, g2, g3, g4, g5, g6, g7, g8, g9, g10, g11, g12, g13, g14, g15, g16,
    g17, g18, g19, g20, g21, g22, g23, g24, g25, g26, g27, g28, g29, g30, g31,
    g32, g33, grest⟩ := h.2
  exact ⟨h1, h2 rfl, h5 rfl, h11 42 rfl, h22, g1, g12 (1 / 2) rfl, g14 rfl,
    g4 rfl, g33⟩

/-
Claim C8: positivity of frame_rate and the resolution fields.
-/

/-- createUser never touches the store. -/
theorem createUserRPC_snd (u e : String) (n : Nat) (s : Store) :
    (createUserRPC u e n s).2 = s := by
  unfold createUserRPC createUser
  split <;> rfl

/-- createMediaAsset never touches the projects table. -/
theorem createMediaAssetRPC_projects (i : CreateMediaAssetInput) (n : Nat)
    (s : Store) : ((createMediaAssetRPC i n s).2).projects = s.projects := by
  unfold createMediaAssetRPC createMediaAsset
  split
  · split
    · rfl
    · rfl
  · rfl

/-- deleteMediaAsset never touches the projects table. -/
theorem deleteMediaAssetRPC_projects (id : Nat) (s : Store) :
    ((deleteMediaAssetRPC id s).2).projects = s.projects := by
  unfold deleteMediaAssetRPC deleteMediaAsset
  split
  · rfl
  · rfl

/-- createTimelineItem never touches the projects table. -/
theorem createTimelineItemRPC_projects (i : CreateTimelineItemInput) (n : Nat)
    (s : Store) : ((createTimelineItemRPC i n s).2).projects = s.projects := by
  unfold createTimelineItemRPC createTimelineItem
  split
  · split
    · rfl
    · split
      · rfl
      · rfl
  · rfl

/-- updateTimelineItem never touches the projects table. -/
theorem updateTimelineItemRPC_projects (i : UpdateTimelineItemInput) (n : Nat)
    (s : Store) : ((updateTimelineItemRPC i n s).2).projects = s.projects := by
  unfold updateTimelineItemRPC
  split
  · simp only [updateTimelineItem]
    split
    · rfl
    · rfl
  · rfl

/-- A project created through the validated createProject has positive
frame_rate and resolution fields. -/
theorem createProjectRPC_preserves_inv (i : CreateProjectInput) (n : Nat)
    (s : Store) (hs : ProjectInv s) : ProjectInv ((createProjectRPC i n s).2) := by
  unfold createProjectRPC
  by_cases hv : validCreateProjectInput i = true
  · rw [if_pos hv]
    simp only [validCreateProjectInput, Bool.and_eq_true, decide_eq_true_eq] at hv
    unfold createProject
    split
    · exact hs
    · intro p hp
      rcases List.mem_append.mp hp with hmem | hmem
      · exact hs p hmem
      · rcases List.mem_singleton.mp hmem with rfl
        exact ⟨hv.1.1.2, hv.1.2, hv.2⟩
  · rw [if_neg hv]
    exact hs

/-- The dynamic project update keeps frame_rate and the resolution fields
positive: provided fields are validated positive, absent fields keep their
positive previous value. -/
theorem applyUpdateProject_pos (i : UpdateProjectInput) (now : Nat)
    (p : Project) (hv : validUpdateProjectInput i = true)
    (hp : 0 < p.frame_rate ∧ 0 < p.resolution_width ∧ 0 < p.resolution_height) :
    0 < (applyUpdateProject i now p).frame_rate ∧
    0 < (applyUpdateProject i now p).resolution_width ∧
    0 < (applyUpdateProject i now p).resolution_height := by
  simp only [validUpdateProjectInput, Bool.and_eq_true] at hv
  obtain ⟨⟨⟨ht, hf⟩, hw⟩, hh⟩ := hv
  refine ⟨?_, ?_, ?_⟩
  · rcases hfr : i.frame_rate with _ | f
    · simpa [applyUpdateProject, hfr] using hp.1
    · rw [hfr] at hf
      simp only [decide_eq_true_eq] at hf
      simpa [applyUpdateProject, hfr] using hf
  · rcases hwr : i.resolution_width with _ | w
    · simpa [applyUpdateProject, hwr] using hp.2.1
    · rw [hwr] at hw
      simp only [decide_eq_true_eq] at hw
      simpa [applyUpdateProject, hwr] using hw
  · rcases hhr : i.resolution_height with _ | hgt
    · simpa [applyUpdateProject, hhr] using hp.2.2
    · rw [hhr] at hh
      simp only [decide_eq_true_eq] at hh
      simpa [applyUpdateProject, hhr] using hh

/-- The validated updateProject preserves the positivity invariant. -/
theorem updateProjectRPC_preserves_inv (i : UpdateProjectInput) (n : Nat)
    (s : Store) (hs : ProjectInv s) : ProjectInv ((updateProjectRPC i n s).2) := by
  unfold updateProjectRPC
  by_cases hv : validUpdateProjectInput i = true
  · rw [if_pos hv]
    unfold updateProject
    split
    · exact hs
    · intro p hp
      rcases List.mem_map.mp hp with ⟨a, ha, hfa⟩
      by_cases hcase : (a.id == i.id) = true
      · rw [if_pos hcase] at hfa
        rw [← hfa]
        exact applyUpdateProject_pos i n a hv (hs a ha)
      · rw [if_neg hcase] at hfa
        rw [← hfa]
        exact hs a ha
  · rw [if_neg hv]
    exact hs

/-- deleteProject preserves the positivity invariant: the surviving projects
are a sublist of the previous ones. -/
theorem deleteProject_preserves_inv (id : Nat) (s : Store) (hs : ProjectInv s) :
    ProjectInv ((deleteProject id s).2) := by
  unfold deleteProject
  split
  · exact hs
  · intro p hp
    exact hs p (List.mem_of_mem_filter hp)

/-- C8: every store reachable through the tRPC surface from a base store
whose projects all have positive frame_rate, resolution_width and
resolution_height keeps that invariant; in particular createProject and
updateProject preserve it for every input their zod schemas accept. -/
theorem project_positivity_invariant (s0 s : Store) (h0 : ProjectInv s0)
    (hr : Reach s0 s) : ProjectInv s := by
  induction hr with
  | base => exact h0
  | stepCreateUser u e n hs ih =>
    intro p hp
    rw [createUserRPC_snd] at hp
    exact ih p hp
  | stepCreateProject i n hs ih =>
    exact createProjectRPC_preserves_inv i n _ ih
  | stepUpdateProject i n hs ih =>
    exact updateProjectRPC_preserves_inv i n _ ih
  | stepDeleteProject id hs ih =>
    exact deleteProject_preserves_inv id _ ih
  | stepCreateMediaAsset i n hs ih =>
    intro p hp
    rw [createMediaAssetRPC_projects] at hp
    exact ih p hp
  | stepDeleteMediaAsset id hs ih =>
    intro p hp
    rw [deleteMediaAssetRPC_projects] at hp
    exact ih p hp
  | stepCreateTimelineItem i n hs ih =>
    intro p hp
    rw [createTimelineItemRPC_projects] at hp
    exact ih p hp
  | stepUpdateTimelineItem i n hs ih =>
    intro p hp
    rw [updateTimelineItemRPC_projects] at hp
    exact ih p hp
  | stepDeleteTimelineItem id hs ih =>
    exact ih

/-- Concrete valid createProject input used by the invariant witness. -/
def demoCreateProjectInput : CreateProjectInput :=
  { title := "New Project", description := none, frame_rate := 24,
    resolution_width := 1280, resolution_height := 720, user_id := 1 }

/-- Witness: the invariant theorem applied to the store reached from
seedStore by one createProject step. -/
theorem project_positivity_invariant_witness :
    ProjectInv ((createProjectRPC demoCreateProjectInput 7 seedStore).2) :=
  project_positivity_invariant seedStore _ (by decide)
    (Reach.stepCreateProject demoCreateProjectInput 7 Reach.base)

/-
Claim C9: NotFoundError leaves the store unchanged.
-/

/-- C9: whenever a referenced id is absent, the failing operation returns
the store it was given: updateProject checks existence before building its
update, createTimelineItem checks the project and then the media asset
before inserting, and deleteMediaAsset checks the asset before deleting any
child timeline item. -/
theorem notFound_preserves_store (i : UpdateProjectInput)
    (k : CreateTimelineItemInput) (nid : Nat) (now now2 : Nat)
    (s s2 s3 : Store) :
    ((s.projects.filter (fun p => p.id == i.id)).isEmpty = true →
      updateProject i now s =
        (.error (.notFound ("Project with id " ++ toString i.id ++ " not found")), s)) ∧
    (((s2.projects.filter (fun p => p.id == k.project_id)).isEmpty = true ∨
        (s2.mediaAssets.filter (fun m => m.id == k.media_asset_id)).isEmpty = true) →
      ∃ msg, createTimelineItem k now2 s2 = (.error (.notFound msg), s2)) ∧
    ((s3.mediaAssets.filter (fun m => m.id == nid)).isEmpty = true →
      deleteMediaAsset nid s3 = (.error (.notFound "Media asset not found"), s3)) := by
  refine ⟨?_, ?_, ?_⟩
  · intro h
    have hnil : s.projects.filter (fun p => p.id == i.id) = [] :=
      List.isEmpty_iff.mp h
    unfold updateProject
    rw [hnil]
  · intro hor
    by_cases hp : (s2.projects.filter (fun p => p.id == k.project_id)).isEmpty = true
    · refine ⟨"Project with id " ++ toString k.project_id ++ " not found", ?_⟩
      unfold createTimelineItem
      rw [if_pos hp]
    · rcases hor with hpp | hm
      · exact absurd hpp hp
      · refine ⟨"Media asset with id " ++ toString k.media_asset_id ++ " not found", ?_⟩
        unfold createTimelineItem
        rw [if_neg hp, if_pos hm]
  · intro h
    unfold deleteMediaAsset
    rw [if_pos h]

/-- Witness: all three components applied at the absent id 99 on the seeded
store. -/
theorem notFound_preserves_store_witness :
    updateProject
        { id := 99, title := none, description := none, status := none,
          duration := none, frame_rate := none, resolution_width := none,
          resolution_height := none } 1 seedStore =
      (.error (.notFound "Project with id 99 not found"), seedStore) ∧
    (∃ msg, createTimelineItem { validItemInput with project_id := 99 } 1 seedStore =
      (.error (.notFound msg), seedStore)) ∧
    deleteMediaAsset 99 seedStore =
      (.error (.notFound "Media asset not found"), seedStore) :=
  ⟨(notFound_preserves_store
      { id := 99, title := none, description := none, status := none,
        duration := none, frame_rate := none, resolution_width := none,
        resolution_height := none }
      { validItemInput with project_id := 99 } 99 1 1 seedStore seedStore
      seedStore).1 (by decide),
    (notFound_preserves_store
      { id := 99, title := none, description := none, status := none,
        duration := none, frame_rate := none, resolution_width := none,
        resolution_height := none }
      { validItemInput with project_id := 99 } 99 1 1 seedStore seedStore
      seedStore).2.1 (Or.inl (by decide)),
    (notFound_preserves_store
      { id := 99, title := none, description := none, status := none,
        duration := none, frame_rate := none, resolution_width := none,
        resolution_height := none }
      { validItemInput with project_id := 99 } 99 1 1 seedStore seedStore
      seedStore).2.2 (by decide)⟩

/-
Claim C10: falsy optional values.
-/

/-- createMediaAsset input whose width is the falsy number 0; the zod
schema requires a positive width when one is given. -/
def zeroWidthAssetInput : CreateMediaAssetInput :=
  { filename := "a.png", original_filename := "a.png", file_path := "/a.png",
    file_size := 10, mime_type := "image/png", media_type := MediaType.image,
    duration := none, width := some (some 0), height := some (some 600),
    user_id := 1 }

/-- C10 counterexample: at the public interface, createMediaAsset called
with width 0 does not create a MediaAsset whose width is null — the zod
schema rejects the falsy width with a ValidationError before the handler
runs, and the store still contains only the seeded asset, whose width is
not null. -/
theorem createMediaAsset_zero_width_rejected :
    createMediaAssetRPC zeroWidthAssetInput 1 seedStore =
      (.error (.validation "Invalid input"), seedStore) ∧
    (∀ m ∈ (createMediaAssetRPC zeroWidthAssetInput 1 seedStore).2.mediaAssets,
      m.width ≠ none) :=
  ⟨rfl, by decide⟩

/-- C10 amended: createProject called with the empty-string description
creates a Project whose description is null; createMediaAsset called with
width 0 or height 0 is rejected by the input schema at the public interface
with a ValidationError and an unchanged store; only the handler invoked
directly, bypassing validation, coerces width 0 or height 0 to null. -/
theorem falsy_optionals_coerced_to_null :
    (∀ (i : CreateProjectInput) (now : Nat) (s : Store) (r : Project)
      (s4 : Store), createProjectRPC i now s = (.ok r, s4) →
      i.description = some (some "") → r.description = none) ∧
    (∀ (i : CreateMediaAssetInput) (now : Nat) (s : Store),
      (i.width = some (some 0) ∨ i.height = some (some 0)) →
      createMediaAssetRPC i now s = (.error (.validation "Invalid input"), s)) ∧
    (∀ (i : CreateMediaAssetInput) (now : Nat) (s : Store) (r : MediaAsset)
      (s4 : Store), createMediaAsset i now s = (.ok r, s4) →
      (i.width = some (some 0) → r.width = none) ∧
      (i.height = some (some 0) → r.height = none)) := by
  refine ⟨?_, ?_, ?_⟩
  · intro i now s r s4 hEq hdesc
    by_cases hv : validCreateProjectInput i = true
    · by_cases hu : (s.users.filter (fun u => u.id == i.user_id)).isEmpty = true
      · simp [createProjectRPC, createProject, hv, hu] at hEq
      · simp [createProjectRPC, createProject, hv, hu] at hEq
        obtain ⟨hr, _⟩ := hEq
        subst hr
        simp [jsStrOrNull, hdesc]
    · simp [createProjectRPC, hv] at hEq
  · intro i now s hor
    have hvf : ¬ (validCreateMediaAssetInput i = true) := by
      intro hvt
      simp only [validCreateMediaAssetInput, Bool.and_eq_true] at hvt
      rcases hor with hw | hh
      · have := hvt.1.2
        rw [hw] at this
        simp [optPosInt] at this
      · have := hvt.2
        rw [hh] at this
        simp [optPosInt] at this
    unfold createMediaAssetRPC
    rw [if_neg hvf]
  · intro i now s r s4 hEq
    by_cases hu : (s.users.filter (fun u => u.id == i.user_id)).isEmpty = true
    · simp [createMediaAsset, hu] at hEq
    · simp [createMediaAsset, hu] at hEq
      obtain ⟨hr, _⟩ := hEq
      subst hr
      constructor
      · intro hw
        simp [jsIntOrNull, hw]
      · intro hh
        simp [jsIntOrNull, hh]

/-- createProject input carrying the falsy empty-string description. -/
def emptyDescProjectInput : CreateProjectInput :=
  { title := "T", description := some (some ""), frame_rate := 30,
    resolution_width := 1920, resolution_height := 1080, user_id := 1 }

/-- The project row that creating emptyDescProjectInput at clock 7 yields:
its description is null. -/
def emptyDescProject : Project :=
  { id := 2, title := "T", description := none, status := ProjectStatus.draft,
    duration := none, frame_rate := 30, resolution_width := 1920,
    resolution_height := 1080, user_id := 1, created_at := 7, updated_at := 7 }

/-- Store after creating emptyDescProjectInput in seedStore at clock 7. -/
def storeAfterEmptyDesc : Store :=
  (createProjectRPC emptyDescProjectInput 7 seedStore).2

/-- The asset row that the createMediaAsset handler, invoked directly with
zeroWidthAssetInput, persists: its width is coerced to null. -/
def zeroWidthAsset : MediaAsset :=
  { id := 2, filename := "a.png", original_filename := "a.png",
    file_path := "/a.png", file_size := 10, mime_type := "image/png",
    media_type := MediaType.image, duration := none, width := none,
    height := some 600, user_id := 1, created_at := 1, updated_at := 1 }

/-- Store after the direct handler call with zeroWidthAssetInput. -/
def storeAfterZeroWidth : Store :=
  (createMediaAsset zeroWidthAssetInput 1 seedStore).2

/-- Witness: the amended theorem applied to the concrete empty-description
project creation, the rejected zero-width RPC call, and the direct handler
call that coerces width 0 to null. -/
theorem falsy_optionals_coerced_to_null_witness :
    emptyDescProject.description = none ∧
    createMediaAssetRPC zeroWidthAssetInput 3 seedStore =
      (.error (.validation "Invalid input"), seedStore) ∧
    zeroWidthAsset.width = none :=
  ⟨falsy_optionals_coerced_to_null.1 emptyDescProjectInput 7 seedStore
      emptyDescProject storeAfterEmptyDesc rfl rfl,
    falsy_optionals_coerced_to_null.2.1 zeroWidthAssetInput 3 seedStore
      (Or.inl rfl),
    (falsy_optionals_coerced_to_null.2.2 zeroWidthAssetInput 1 seedStore
      zeroWidthAsset storeAfterZeroWidth rfl).1 rfl⟩

end VideoEditor
